import Mathlib

/-!
Verification of the awesome-stars staleness analyzer
(`analyze_staleness.py`, `focused_analysis.py`).

Shallow embedding conventions:
  * A GitHub API JSON object is embedded as `RepoInfo`, a record of the
    fields the program consumes; an absent dictionary key is `none`.
  * Timestamps are seconds since an arbitrary epoch, as `Int`.  The
    Python code parses the `pushed_at` ISO string and subtracts it from
    `datetime.now()`; we embed the parsed timestamp directly
    (`pushed_at : Option Int`) together with the current time
    (`now : Int`), and `timedelta.days` becomes floor division of the
    second difference by 86400 (`Int.fdiv`), which matches Python's
    normalisation of negative timedeltas.  A `pushed_at` value that is
    absent or the falsy empty string is embedded as `none`
    (`if pushed_at:` in the source skips both).
  * Python f-strings become explicit `++` / `toString` concatenation.
  * `list(set(repos))` returns the set in unspecified order; it is
    embedded as the `Finset` of the extracted list.
-/

/-- The subset of a GitHub repository JSON object the program reads.
`none` models an absent key; `error` / `status_code` are the keys the
client inserts into its synthetic error dictionaries. -/
structure RepoInfo where
  error : Option String
  status_code : Option Nat
  archived : Option Bool
  fork : Option Bool
  pushed_at : Option Int
  stargazers_count : Option Int
deriving DecidableEq, Repr

/-- The dictionary returned by `GitHubAnalyzer.analyze_staleness`.  The
error branch returns a dictionary without the `last_push`, `stars`,
`archived`, `fork` keys, embedded as `none` in those fields. -/
structure StalenessResult where
  staleness_score : Nat
  reasons : List String
  is_stale : Bool
  category : String
  last_push : Option (Option Int)
  stars : Option Int
  archived : Option Bool
  fork : Option Bool
deriving DecidableEq, Repr

/-- Whole days between `now` and the push timestamp:
`(datetime.now().astimezone() - pushed_date).days`.  Python's
`timedelta.days` floors, hence `Int.fdiv`. -/
def days_since_push (now pushed_date : Int) : Int :=
  Int.fdiv (now - pushed_date) 86400

/-- Embedding of `GitHubAnalyzer.analyze_staleness`
(analyze_staleness.py lines 83-153).  The sequential `staleness_score +=`
/ `reasons.append` accumulation is rendered as a source-ordered sum and
append of the per-rule contributions (archived, fork, age, stars); the
`elif` chain on the push age is the nested `if`. -/
def analyze_staleness (repo_info : RepoInfo) (now : Int) : StalenessResult :=
  match repo_info.error with
  | some msg =>
      { staleness_score := 100
        reasons := [msg]
        is_stale := true
        category := "error"
        last_push := none, stars := none, archived := none, fork := none }
  | none =>
      let archivedPts : Nat := if repo_info.archived.getD false then 50 else 0
      let archivedRs : List String :=
        if repo_info.archived.getD false then ["Repository is archived"] else []
      let forkPts : Nat := if repo_info.fork.getD false then 10 else 0
      let forkRs : List String :=
        if repo_info.fork.getD false then ["Repository is a fork"] else []
      let agePts : Nat :=
        match repo_info.pushed_at with
        | none => 0
        | some t =>
            let d := days_since_push now t
            if d > 365 * 3 then 40
            else if d > 365 * 2 then 30
            else if d > 365 then 20
            else if d > 180 then 10
            else 0
      let ageRs : List String :=
        match repo_info.pushed_at with
        | none => []
        | some t =>
            let d := days_since_push now t
            if d > 365 * 3 then
              ["No commits in " ++ toString (Int.fdiv d 365) ++ " years"]
            else if d > 365 * 2 then
              ["No commits in " ++ toString (Int.fdiv d 365) ++ " years"]
            else if d > 365 then
              ["No commits in " ++ toString d ++ " days"]
            else if d > 180 then
              ["No commits in " ++ toString d ++ " days"]
            else []
      let stars : Int := repo_info.stargazers_count.getD 0
      let starPts : Nat := if stars < 10 then 5 else 0
      let starRs : List String :=
        if stars < 10 then ["Low adoption (" ++ toString stars ++ " stars)"] else []
      let score : Nat := archivedPts + forkPts + agePts + starPts
      let category : String :=
        if score ≥ 70 then "very_stale"
        else if score ≥ 50 then "stale"
        else if score ≥ 30 then "possibly_stale"
        else "active"
      { staleness_score := score
        reasons := archivedRs ++ forkRs ++ ageRs ++ starRs
        is_stale := decide (score ≥ 50)
        category := category
        last_push := some repo_info.pushed_at
        stars := some stars
        archived := some (repo_info.archived.getD false)
        fork := some (repo_info.fork.getD false) }

/-- An HTTP response as seen by `get_repo_info`: the status code and the
outcome of `response.json()` (`Except.error` models a parse exception). -/
structure HttpResponse where
  status_code : Nat
  body : Except String RepoInfo
deriving Repr

/-- Outcome of `session.get`: a response, or a raised network exception
with its message (`str(e)`). -/
inductive FetchOutcome where
  | resp (r : HttpResponse)
  | exn (msg : String)
deriving Repr

/-- The dictionary literal the except branch of `get_repo_info` returns:
only an `error` key. -/
def mkError (msg : String) : RepoInfo :=
  { error := some msg, status_code := none, archived := none, fork := none,
    pushed_at := none, stargazers_count := none }

/-- A synthetic error dictionary with `error` and `status_code` keys. -/
def mkErrorStatus (msg : String) (code : Nat) : RepoInfo :=
  { error := some msg, status_code := some code, archived := none, fork := none,
    pushed_at := none, stargazers_count := none }

/-- Embedding of `GitHubAnalyzer.get_repo_info`
(analyze_staleness.py lines 53-69).  The `try` wraps the whole body, so
an exception raised either by the GET or by `response.json()` lands in
the same `except` branch. -/
def get_repo_info (outcome : FetchOutcome) : RepoInfo :=
  match outcome with
  | .exn msg => mkError msg
  | .resp r =>
      if r.status_code = 404 then mkErrorStatus "Repository not found" 404
      else if r.status_code = 403 then
        mkErrorStatus "Rate limited or access denied" 403
      else if r.status_code ≠ 200 then
        mkErrorStatus ("HTTP " ++ toString r.status_code) r.status_code
      else
        match r.body with
        | .ok info => info
        | .error msg => mkError msg

/-- Python `\s` on the ASCII range (the documents are ASCII markdown). -/
def isSpaceChar (c : Char) : Bool :=
  c = ' ' || c = '\t' || c = '\n' || c = '\r' || c = '\x0b' || c = '\x0c'

/-- A character that terminates a path-segment group of the URL pattern
`https://github\.com/([^/\s\)]+)/([^/\s\)]+)`. -/
def isSegStop (c : Char) : Bool :=
  c = '/' || c = ')' || isSpaceChar c

/-- The literal part of the URL pattern. -/
def githubLit : List Char := "https://github.com/".toList

/-- Match a literal at the front of the input, returning the rest. -/
def dropLit : List Char → List Char → Option (List Char)
  | [], cs => some cs
  | _ :: _, [] => none
  | p :: ps, c :: cs => if c = p then dropLit ps cs else none

/-- Match the URL pattern anchored at the front of `cs`.  Both groups
`[^/\s\)]+` are greedy maximal runs; since the owner run cannot contain
`/` and must be followed by `/`, the regex engine's backtracking never
changes the outcome, so the match is this deterministic scan.  Returns
the two captured groups and the input remaining after the match. -/
def tryMatchAt (cs : List Char) : Option (String × String × List Char) :=
  match dropLit githubLit cs with
  | none => none
  | some rest =>
      let owner := rest.takeWhile (fun c => !isSegStop c)
      if owner.isEmpty then none
      else
        match rest.drop owner.length with
        | '/' :: rest2 =>
            let repo := rest2.takeWhile (fun c => !isSegStop c)
            if repo.isEmpty then none
            else some (String.mk owner, String.mk repo, rest2.drop repo.length)
        | _ => none

/-- Left-to-right non-overlapping scan, as `re.findall` performs: try
the pattern at each position, and resume after the end of each match.
`fuel` is the number of remaining scan steps; called with the input
length it never runs out, since a match consumes at least 22
characters while spending one unit of fuel. -/
def scanReposAux : Nat → List Char → List (String × String)
  | 0, _ => []
  | _ + 1, [] => []
  | n + 1, c :: cs =>
      match tryMatchAt (c :: cs) with
      | some (owner, repo, rest) => (owner, repo) :: scanReposAux n rest
      | none => scanReposAux n cs

/-- `re.findall(r"https://github\.com/([^/\s\)]+)/([^/\s\)]+)", content)`. -/
def extract_matches (content : String) : List (String × String) :=
  scanReposAux content.toList.length content.toList

/-- The per-match cleanup `re.sub(r"[^\w\-\.].*$", "", repo)`: the
leftmost match of that pattern starts at the first character outside
`[\w\-.]` and (the group having no whitespace, hence no newline) runs to
the end, so the substitution keeps the prefix of name characters.
`\w` is modelled on the ASCII range. -/
def clean_repo (repo : String) : String :=
  String.mk (repo.toList.takeWhile fun c =>
    c.isAlphanum || c = '_' || c = '-' || c = '.')

/-- The list `repos` built by the extraction loop, before deduplication
(analyze_staleness.py lines 36-51, identically focused_analysis.py
lines 25-33). -/
def extract_repo_list (content : String) : List String :=
  (extract_matches content).map fun p => p.1 ++ "/" ++ clean_repo p.2

/-- `list(set(repos))`: the order is unspecified set semantics, so the
return value is embedded as the finite set of extracted references. -/
def extract_github_repos (content : String) : Finset String :=
  (extract_repo_list content).toFinset

/-- The buckets of the chunked orchestrator `focused_analysis.main`;
`errorCounted` is the `error_count += 1` path, `active` the final
branch, which only prints. -/
inductive FocusedBucket where
  | missing | errorCounted | archived | stale | possibly_stale | active
deriving DecidableEq, Repr

/-- The buckets of `GitHubAnalyzer.analyze_awesome_stars`. -/
inductive FullBucket where
  | error | stale | possibly_stale | active
deriving DecidableEq, Repr

/-- Bucketing decision of the chunked orchestrator
(focused_analysis.py lines 65-106): error dictionaries are diverted
before scoring (404 to the missing bucket, otherwise to the error
count); then `archived` is checked on the raw metadata before the
score thresholds. -/
def focused_bucket (repo_info : RepoInfo) (staleness_score : Nat) : FocusedBucket :=
  if repo_info.error.isSome then
    if repo_info.status_code = some 404 then .missing else .errorCounted
  else if repo_info.archived.getD false then .archived
  else if staleness_score ≥ 50 then .stale
  else if staleness_score ≥ 30 then .possibly_stale
  else .active

/-- Bucketing decision of the non-chunked orchestrator
(analyze_staleness.py lines 196-204): strictly by the category string,
with `very_stale` and `stale` merged
(`staleness["category"] in ["very_stale", "stale"]`). -/
def awesome_bucket (category : String) : FullBucket :=
  if category = "error" then .error
  else if category = "very_stale" ∨ category = "stale" then .stale
  else if category = "possibly_stale" then .possibly_stale
  else .active

/-- A metadata dictionary with every consumed key absent. -/
def mdPlain : RepoInfo := ⟨none, none, none, none, none, none⟩

/-- An error dictionary that also carries every other metadata key. -/
def mdErrFull : RepoInfo := ⟨some "boom", some 500, some true, some true, some 0, some 3⟩

/-- Metadata of an archived fork with 3 stars last pushed 2190 days
(six 365-day years) before `now`. -/
def mdC4 (now : Int) : RepoInfo :=
  ⟨none, none, some true, some true, some (now - 2190 * 86400), some 3⟩

/-- Metadata with a fixed push timestamp and plenty of stars, used to
exhibit the scorer's dependence on the current time. -/
def mdClock : RepoInfo := ⟨none, none, none, none, some 0, some 100⟩

/-- Metadata of an archived repository with 50 stars. -/
def mdArch : RepoInfo := ⟨none, none, some true, none, none, some 50⟩

/-- A document whose platform-URL matches are exactly
`a/one`, `a/one` again, and `b/two` followed by a closing parenthesis. -/
def sampleDoc : String :=
  "See https://github.com/a/one and https://github.com/a/one (also https://github.com/b/two) for details."

/-- C1 counterexample: the scorer is not a function of the metadata
alone.  On identical metadata (`mdClock`), an invocation when the clock
reads day 200 scores 10 while an invocation when it reads day 400
scores 20, so the two results differ: `analyze_staleness` reads
`datetime.now()` (line 110), a dependence outside the input. -/
theorem staleness_clock_dependent :
    (analyze_staleness mdClock (200 * 86400)).staleness_score = 10 ∧
    (analyze_staleness mdClock (400 * 86400)).staleness_score = 20 ∧
    analyze_staleness mdClock (200 * 86400) ≠ analyze_staleness mdClock (400 * 86400) := by
  decide

/-- C1 (amended): the scorer is a pure, deterministic function of the
metadata together with the current time, and the time enters only
through the whole-day distance to `pushed_at`: two invocations at clock
readings that assign the push the same day count (in particular, any
two invocations when `pushed_at` is absent) yield identical results. -/
theorem staleness_deterministic (md : RepoInfo) (t1 t2 : Int)
    (h : ∀ p, md.pushed_at = some p → days_since_push t1 p = days_since_push t2 p) :
    analyze_staleness md t1 = analyze_staleness md t2 := by
  cases herr : md.error with
  | some msg => simp [analyze_staleness, herr]
  | none =>
      cases hp : md.pushed_at with
      | none => simp [analyze_staleness, herr, hp]
      | some p => simp [analyze_staleness, herr, hp, h p hp]

/-- C1 witness: clock readings 86400 and 86401 both put the epoch push
one whole day in the past, so the results coincide. -/
theorem staleness_deterministic_witness :
    analyze_staleness mdClock 86400 = analyze_staleness mdClock 86401 :=
  staleness_deterministic mdClock 86400 86401 (fun p hp => by
    simp only [mdClock] at hp
    injection hp with h2
    subst h2
    decide)

/-- C2 counterexample: status 201 is a 2xx success status, yet
`get_repo_info` does not pass the parsed body through; it returns a
synthetic error dictionary, because the code tests `!= 200`, not
non-2xx. -/
theorem non200_2xx_is_error :
    get_repo_info (FetchOutcome.resp ⟨201, Except.ok mdPlain⟩) ≠ mdPlain
    ∧ (get_repo_info (FetchOutcome.resp ⟨201, Except.ok mdPlain⟩)).error
        = some "HTTP 201" := by
  decide

/-- C2 (amended): the client maps status 404 to the not-found error
dictionary, 403 to the rate-limited-or-forbidden one, any status other
than exactly 200 (2xx or not) to an HTTP error carrying the code, a
raised exception to an error dictionary holding its message — whether
the exception came from the GET or from parsing the body of a 200
response — and passes the parsed body of a status-200 response through
unmodified. -/
theorem get_repo_info_cases (body : Except String RepoInfo) (code : Nat)
    (msg : String) (info : RepoInfo)
    (h404 : code ≠ 404) (h403 : code ≠ 403) (h200 : code ≠ 200) :
    get_repo_info (FetchOutcome.exn msg) = mkError msg
    ∧ get_repo_info (FetchOutcome.resp ⟨404, body⟩)
        = mkErrorStatus "Repository not found" 404
    ∧ get_repo_info (FetchOutcome.resp ⟨403, body⟩)
        = mkErrorStatus "Rate limited or access denied" 403
    ∧ get_repo_info (FetchOutcome.resp ⟨code, body⟩)
        = mkErrorStatus ("HTTP " ++ toString code) code
    ∧ get_repo_info (FetchOutcome.resp ⟨200, Except.ok info⟩) = info
    ∧ get_repo_info (FetchOutcome.resp ⟨200, Except.error msg⟩) = mkError msg := by
  refine ⟨rfl, by simp [get_repo_info], by simp [get_repo_info], ?_,
    by simp [get_repo_info], by simp [get_repo_info]⟩
  simp [get_repo_info, h404, h403, h200]

/-- C2 witness: the client contract instantiated at status 500 and
concrete message and body. -/
theorem get_repo_info_cases_witness :
    get_repo_info (FetchOutcome.exn "boom") = mkError "boom"
    ∧ get_repo_info (FetchOutcome.resp ⟨404, Except.ok mdPlain⟩)
        = mkErrorStatus "Repository not found" 404
    ∧ get_repo_info (FetchOutcome.resp ⟨403, Except.ok mdPlain⟩)
        = mkErrorStatus "Rate limited or access denied" 403
    ∧ get_repo_info (FetchOutcome.resp ⟨500, Except.ok mdPlain⟩)
        = mkErrorStatus "HTTP 500" 500
    ∧ get_repo_info (FetchOutcome.resp ⟨200, Except.ok mdPlain⟩) = mdPlain
    ∧ get_repo_info (FetchOutcome.resp ⟨200, Except.error "boom"⟩) = mkError "boom" :=
  get_repo_info_cases (Except.ok mdPlain) 500 "boom" mdPlain
    (by decide) (by decide) (by decide)

/-- C3: any input dictionary with an `error` key short-circuits the
scorer to exactly score 100, category `error`, `is_stale` true and the
single reason equal to the error message, whatever other metadata
fields are present. -/
theorem error_short_circuit (md : RepoInfo) (msg : String) (now : Int)
    (h : md.error = some msg) :
    analyze_staleness md now =
      { staleness_score := 100, reasons := [msg], is_stale := true,
        category := "error", last_push := none, stars := none,
        archived := none, fork := none } := by
  unfold analyze_staleness
  rw [h]

/-- C3 witness: the short-circuit on an error dictionary that also
carries archived, fork, push and star fields. -/
theorem error_short_circuit_witness :
    analyze_staleness mdErrFull 7 =
      { staleness_score := 100, reasons := ["boom"], is_stale := true,
        category := "error", last_push := none, stars := none,
        archived := none, fork := none } :=
  error_short_circuit mdErrFull "boom" 7 rfl

/-- C4: the rules are additive.  Archived (+50), fork (+10), pushed
2190 days — six years — ago (+40) and 3 stars (+5) sum to 105, giving
category `very_stale` and `is_stale` true, for every current time. -/
theorem scoring_additive (now : Int) :
    (analyze_staleness (mdC4 now) now).staleness_score = 105 ∧
    (analyze_staleness (mdC4 now) now).category = "very_stale" ∧
    (analyze_staleness (mdC4 now) now).is_stale = true := by
  have hd : days_since_push now (now - 189216000) = 2190 := by
    unfold days_since_push
    have h1 : now - (now - 189216000) = 189216000 := by ring
    rw [h1]; decide
  simp [analyze_staleness, mdC4, hd]

/-- C5: a push exactly 366 days before now, with archived and fork
false and at least 10 stars, contributes exactly the +20 of the
more-than-365-days bracket — total score 20 and the single day-count
reason — not the +10 of the more-than-180-days bracket, and no other
age contribution. -/
theorem age_bracket_366 (now : Int) (stars : Int) (h : ¬ stars < 10) :
    (analyze_staleness ⟨none, none, some false, some false,
        some (now - 366 * 86400), some stars⟩ now).staleness_score = 20 ∧
    (analyze_staleness ⟨none, none, some false, some false,
        some (now - 366 * 86400), some stars⟩ now).reasons
      = ["No commits in 366 days"] := by
  have hd : days_since_push now (now - 31622400) = 366 := by
    unfold days_since_push
    have h1 : now - (now - 31622400) = 31622400 := by ring
    rw [h1]; decide
  constructor
  · simp [analyze_staleness, hd, h]
  · simp [analyze_staleness, hd, h]
    decide

/-- C5 witness: the 366-day bracket at time 0 with 50 stars. -/
theorem age_bracket_366_witness :
    (analyze_staleness ⟨none, none, some false, some false,
        some (0 - 366 * 86400), some 50⟩ 0).staleness_score = 20 ∧
    (analyze_staleness ⟨none, none, some false, some false,
        some (0 - 366 * 86400), some 50⟩ 0).reasons
      = ["No commits in 366 days"] :=
  age_bracket_366 0 50 (by decide)

/-- C6: the low-adoption penalty is strict.  On any non-error metadata,
setting `stargazers_count` to 9 rather than 10 adds exactly 5 points
and exactly the one extra reason stating the count; with 10 stars the
star rule contributes nothing. -/
theorem low_adoption_strict (md : RepoInfo) (now : Int) (h : md.error = none) :
    (analyze_staleness { md with stargazers_count := some 9 } now).staleness_score
      = (analyze_staleness { md with stargazers_count := some 10 } now).staleness_score + 5
    ∧ (analyze_staleness { md with stargazers_count := some 9 } now).reasons
      = (analyze_staleness { md with stargazers_count := some 10 } now).reasons
        ++ ["Low adoption (9 stars)"] := by
  have h9 : "Low adoption (" ++ toString (9 : Int) ++ " stars)" = "Low adoption (9 stars)" := by
    decide
  constructor <;> simp [analyze_staleness, h, h9]

/-- C6 witness: the strict boundary on otherwise-empty metadata. -/
theorem low_adoption_strict_witness :
    (analyze_staleness { mdPlain with stargazers_count := some 9 } 0).staleness_score
      = (analyze_staleness { mdPlain with stargazers_count := some 10 } 0).staleness_score + 5
    ∧ (analyze_staleness { mdPlain with stargazers_count := some 9 } 0).reasons
      = (analyze_staleness { mdPlain with stargazers_count := some 10 } 0).reasons
        ++ ["Low adoption (9 stars)"] :=
  low_adoption_strict mdPlain 0 rfl

/-- C7: on any document whose platform-URL matches are exactly
`(a, one)`, `(a, one)` again and `(b, two)` — the latter being the raw
capture of `https://github.com/b/two)`, the closing parenthesis
excluded — extraction yields exactly the two-element set of references,
the duplicate collapsed. -/
theorem extraction_dedup_and_trim (content : String)
    (h : extract_matches content = [("a", "one"), ("a", "one"), ("b", "two")]) :
    extract_github_repos content = {"a/one", "b/two"} := by
  unfold extract_github_repos extract_repo_list
  rw [h]
  decide

/-- C7 witness: the concrete document `sampleDoc` containing the three
URLs, the third with a trailing parenthesis, matched by the embedded
scanner itself. -/
theorem extraction_dedup_and_trim_witness :
    extract_matches sampleDoc = [("a", "one"), ("a", "one"), ("b", "two")]
    ∧ extract_github_repos sampleDoc = {"a/one", "b/two"} :=
  ⟨by decide, extraction_dedup_and_trim sampleDoc (by decide)⟩

/-- C8: the chunked orchestrator sends every non-error repository with
`archived = true` to the archived bucket regardless of its staleness
score, while the non-chunked orchestrator buckets by the category
string and merges `very_stale` and `stale` into the single stale
bucket. -/
theorem bucketing_variants (md : RepoInfo) (s : Nat) (cat : String)
    (h1 : md.error = none) (h2 : md.archived = some true)
    (h3 : cat = "very_stale" ∨ cat = "stale") :
    focused_bucket md s = FocusedBucket.archived
    ∧ awesome_bucket cat = FullBucket.stale := by
  constructor
  · simp [focused_bucket, h1, h2]
  · rcases h3 with h3 | h3 <;> rw [h3] <;> decide

/-- C8 witness: an archived repository with score 0 lands in the
archived bucket; a `very_stale` category lands in the stale bucket. -/
theorem bucketing_variants_witness :
    focused_bucket mdArch 0 = FocusedBucket.archived
    ∧ awesome_bucket "very_stale" = FullBucket.stale :=
  bucketing_variants mdArch 0 "very_stale" rfl rfl (Or.inl rfl)

/-- C9: on any non-error metadata without a `stargazers_count` key the
scorer defaults the count to 0, so the low-adoption rule fires — the
reason "Low adoption (0 stars)" appears and the score is exactly 5
above the same metadata with 10 stars — and the result reports
`stars = 0`. -/
theorem missing_stars_default (md : RepoInfo) (now : Int)
    (h1 : md.error = none) (h2 : md.stargazers_count = none) :
    "Low adoption (0 stars)" ∈ (analyze_staleness md now).reasons
    ∧ (analyze_staleness md now).stars = some 0
    ∧ (analyze_staleness md now).staleness_score
      = (analyze_staleness { md with stargazers_count := some 10 } now).staleness_score + 5 := by
  have h0 : "Low adoption (" ++ toString (0 : Int) ++ " stars)" = "Low adoption (0 stars)" := by
    decide
  refine ⟨?_, ?_, ?_⟩ <;> simp [analyze_staleness, h1, h2, h0]

/-- C9 witness: the default star count on otherwise-empty metadata. -/
theorem missing_stars_default_witness :
    "Low adoption (0 stars)" ∈ (analyze_staleness mdPlain 0).reasons
    ∧ (analyze_staleness mdPlain 0).stars = some 0
    ∧ (analyze_staleness mdPlain 0).staleness_score
      = (analyze_staleness { mdPlain with stargazers_count := some 10 } 0).staleness_score + 5 :=
  missing_stars_default mdPlain 0 rfl rfl

/-- C10: on any non-error metadata the reasons list is empty exactly
when the score is 0 — every rule that adds points appends one reason
and no reason is appended without points. -/
theorem reasons_iff_score (md : RepoInfo) (now : Int) (h : md.error = none) :
    (analyze_staleness md now).reasons = [] ↔
      (analyze_staleness md now).staleness_score = 0 := by
  simp only [analyze_staleness, h]
  cases hp : md.pushed_at
  · simp [hp, and_assoc]
  · simp [hp]
    split_ifs <;> simp_all [and_assoc]

/-- C10 witness: the equivalence instantiated on empty metadata. -/
theorem reasons_iff_score_witness :
    ((analyze_staleness mdPlain 0).reasons = [] ↔
      (analyze_staleness mdPlain 0).staleness_score = 0) :=
  reasons_iff_score mdPlain 0 rfl
